import Mathlib

/-!
Verification of the Pixverse lip-sync API client (`src/client.ts`).

The development shallowly embeds the two cores of the library:
  * the resilient JSON request executor (`PixverseClient.request`), modelled
    as a recursive function over a stream of per-attempt transport outcomes,
    instrumented with the number of attempts made and the delays slept;
  * the signed object-storage uploader (`PixverseClient.uploadToOSS`),
    including an executable HMAC-SHA1 / base64 so that the produced
    authorization signature is a real computable value.

Randomness (trace ids, object-name UUIDs) and the current time are passed as
explicit parameters; the network is a value describing what each transport
call would return.
-/

namespace Pixverse

/-- Envelope shape of every control-plane response (`PixverseResponse<T>` in
`types.ts`): integer error code, message, typed payload. -/
structure PixverseResponse (T : Type) where
  ErrCode : Int
  ErrMsg : String
  Resp : T
  deriving Repr, DecidableEq

/-- What one transport call (`fetch`) does: either the promise rejects
(network error) or it resolves with a status code and a decoded body. -/
inductive AttemptOutcome (T : Type) where
  | networkError (msg : String)
  | httpResponse (status : Nat) (body : PixverseResponse T)
  deriving Repr

/-- `Response.ok` of the Fetch API: status in the 2xx range. -/
def httpOk (status : Nat) : Bool := 200 ≤ status && status < 300

/-- The error message built at `client.ts:67` for a 2xx response whose
envelope carries a nonzero code. -/
def apiErrorMsg {T : Type} (body : PixverseResponse T) : String :=
  "API error: " ++ body.ErrMsg ++ " (Code: " ++ toString body.ErrCode ++ ")"

/-- The error message built at `client.ts:61` for a non-2xx status. -/
def httpErrorMsg (status : Nat) : String :=
  "HTTP error! status: " ++ toString status

/-- Body of the `try` block of `request` (`client.ts:52-70`) for a single
attempt: fail on rejected fetch, then on non-2xx status, then on nonzero
envelope code; otherwise return the decoded envelope. -/
def attemptResult {T : Type} (o : AttemptOutcome T) :
    Except String (PixverseResponse T) :=
  match o with
  | .networkError m => .error m
  | .httpResponse status body =>
    if httpOk status = false then .error (httpErrorMsg status)
    else if body.ErrCode ≠ 0 then .error (apiErrorMsg body)
    else .ok body

/-- Instrumented result of `request`: the value or error it settles with,
how many transport attempts were made, and the list of delays (ms) slept
between attempts. -/
structure RequestTrace (T : Type) where
  result : Except String (PixverseResponse T)
  attempts : Nat
  delaysMs : List Nat
  deriving Repr

/-- The retry loop of `request` (`client.ts:52-77`): attempt number `idx`
is tried; on error, if retries remain, sleep 1000 ms and recurse with one
fewer retry; otherwise rethrow the last error. -/
def requestLoop {T : Type} (outcomes : Nat → AttemptOutcome T) (idx : Nat) :
    Nat → RequestTrace T
  | 0 =>
    match attemptResult (outcomes idx) with
    | .ok d => ⟨.ok d, 1, []⟩
    | .error e => ⟨.error e, 1, []⟩
  | r + 1 =>
    match attemptResult (outcomes idx) with
    | .ok d => ⟨.ok d, 1, []⟩
    | .error _ =>
      let t := requestLoop outcomes (idx + 1) r
      ⟨t.result, t.attempts + 1, 1000 :: t.delaysMs⟩

/-- `PixverseClient.request` with its default budget of 3 retries
(`client.ts:30`): 4 transport attempts at most. -/
def requestExec {T : Type} (outcomes : Nat → AttemptOutcome T) : RequestTrace T :=
  requestLoop outcomes 0 3

/-! ### Header construction of `request` (`client.ts:34-58`) -/

/-- `PixverseConfig` from `types.ts`: auth token and extra headers fixed at
client construction. Header mappings are ordered key/value lists, mirroring
JS object literals (later keys override earlier ones on lookup). -/
structure PixverseConfig where
  token : String
  headers : List (String × String)
  deriving Repr

/-- Per-call options handed to `request` (the `RequestInit`): method, body,
and a per-call header mapping such as the `Refresh` header of
`createLipSync` (`client.ts:214-216`). -/
structure RequestOptions where
  httpMethod : String
  body : Option String
  headers : List (String × String)
  deriving Repr

/-- Static browser user agent from `client.ts:36-37`. -/
def browserUA : String :=
  "Mozilla/5.0 (Macintosh; Intel Mac OS X 10.15; rv:136.0) Gecko/20100101 Firefox/136.0"

/-- The header object literal of `request` (`client.ts:34-50`): the fixed
default set followed by the spread of `this.config.headers`. -/
def requestHeaders (config : PixverseConfig) (traceId : String) :
    List (String × String) :=
  [("Content-Type", "application/json"),
   ("User-Agent", browserUA),
   ("X-Platform", "Web"),
   ("Referer", "https://app.pixverse.ai/"),
   ("Origin", "https://app.pixverse.ai"),
   ("Sec-Fetch-Dest", "empty"),
   ("Sec-Fetch-Mode", "cors"),
   ("Sec-Fetch-Site", "same-site"),
   ("Sec-GPC", "1"),
   ("Accept", "application/json, text/plain, */*"),
   ("Accept-Language", "en-US"),
   ("Ai-Trace-Id", traceId),
   ("Token", config.token)]
  ++ config.headers

/-- Lookup in an ordered header mapping with JS-object semantics: the last
binding of a key wins. -/
def lookupHeader (hs : List (String × String)) (k : String) : Option String :=
  (hs.reverse.find? (fun p => p.1 = k)).map (fun p => p.2)

/-- What `request` actually passes to `fetch` (`client.ts:53-58`):
`{ ...options, headers, credentials: 'omit', mode: 'cors' }` — the spread of
`options` first, then the `headers` field overwritten with the merged
default/config headers. The per-call `options.headers` mapping is replaced
wholesale, not merged. -/
def sentInit (config : PixverseConfig) (traceId : String)
    (options : RequestOptions) : RequestOptions :=
  { httpMethod := options.httpMethod
    body := options.body
    headers := requestHeaders config traceId }

/-! ### Convenience operations (`client.ts:80-88, 196-253`) -/

/-- `UploadTokenResponse` from `types.ts`: the short-lived OSS credential. -/
structure UploadTokenResponse where
  Ak : String
  Sk : String
  Token : String
  deriving Repr, DecidableEq

/-- `LipSyncRequest` fields used by `createLipSync`'s validation. -/
structure LipSyncRequest where
  customer_video_path : String
  lip_sync_tts_content : String
  customer_video_duration : Int
  deriving Repr

/-- `LastVideoFrameRequest` from `types.ts`. -/
structure LastVideoFrameRequest where
  video_path : String
  duration : Int
  deriving Repr

/-- `VideoDetailsRequest` from `types.ts` (`video_id : number`; the JS
falsiness test `!video_id` is zero-test on the number). -/
structure VideoDetailsRequest where
  video_id : Int
  deriving Repr

/-- Instrumented outcome of one convenience call: the local validation
error (if any), how many transport attempts the executor made (0 when the
method threw before reaching the network), and the settled value. -/
structure CallOutcome (R : Type) where
  localError : Option String
  networkAttempts : Nat
  result : Except String R
  deriving Repr

/-- Runs the executor and wraps its trace as a call that did reach the
network, resolving with the FULL envelope (as `createLipSync`,
`getLastVideoFrame` and `getVideoDetails` do). -/
def callEnvelope {T : Type} (outcomes : Nat → AttemptOutcome T) :
    CallOutcome (PixverseResponse T) :=
  let t := requestExec outcomes
  { localError := none, networkAttempts := t.attempts, result := t.result }

/-- Runs the executor and resolves with only the `Resp` payload field (as
`getUploadToken` and `uploadMedia` do via `return response.Resp`). -/
def callResp {T : Type} (outcomes : Nat → AttemptOutcome T) : CallOutcome T :=
  let t := requestExec outcomes
  { localError := none, networkAttempts := t.attempts,
    result := t.result.map (fun d => d.Resp) }

/-- Error message of `client.ts:200-202`. -/
def lipSyncMissingMsg : String :=
  "Missing required fields: customer_video_path and lip_sync_tts_content are required"

/-- Error message of `client.ts:206`. -/
def lipSyncDurationMsg : String :=
  "Invalid video duration: must be greater than 0"

/-- Error message of `client.ts:225-227`. -/
def lastFrameMissingMsg : String :=
  "Missing required fields: video_path and duration must be provided and duration must be greater than 0"

/-- Error message of `client.ts:243`. -/
def videoDetailsMissingMsg : String :=
  "Missing required field: video_id must be provided"

/-- Local failure: a call that threw synchronously, with no transport
attempt. -/
def localFailure {R : Type} (msg : String) : CallOutcome R :=
  { localError := some msg, networkAttempts := 0, result := .error msg }

/-- `createLipSync` (`client.ts:196-219`): validates the request (JS
falsiness on the two strings is the empty-string test; duration must be
strictly positive), then delegates to the executor and resolves with the
full envelope. -/
def createLipSync {T : Type} (r : LipSyncRequest)
    (outcomes : Nat → AttemptOutcome T) :
    CallOutcome (PixverseResponse T) :=
  if r.customer_video_path = "" ∨ r.lip_sync_tts_content = "" then
    localFailure lipSyncMissingMsg
  else if r.customer_video_duration ≤ 0 then
    localFailure lipSyncDurationMsg
  else
    callEnvelope outcomes

/-- `getLastVideoFrame` (`client.ts:221-237`). -/
def getLastVideoFrame {T : Type} (r : LastVideoFrameRequest)
    (outcomes : Nat → AttemptOutcome T) :
    CallOutcome (PixverseResponse T) :=
  if r.video_path = "" ∨ r.duration ≤ 0 then
    localFailure lastFrameMissingMsg
  else
    callEnvelope outcomes

/-- `getVideoDetails` (`client.ts:239-253`). -/
def getVideoDetails {T : Type} (r : VideoDetailsRequest)
    (outcomes : Nat → AttemptOutcome T) :
    CallOutcome (PixverseResponse T) :=
  if r.video_id = 0 then
    localFailure videoDetailsMissingMsg
  else
    callEnvelope outcomes

/-- `getUploadToken` (`client.ts:80-88`): no validation, resolves with
`response.Resp` only. -/
def getUploadToken (outcomes : Nat → AttemptOutcome UploadTokenResponse) :
    CallOutcome UploadTokenResponse :=
  callResp outcomes

/-- `uploadMedia` (`client.ts:182-194`): no validation, resolves with
`response.Resp` only. -/
def uploadMedia {T : Type} (outcomes : Nat → AttemptOutcome T) : CallOutcome T :=
  callResp outcomes

/-! ### Executable HMAC-SHA1 and base64 (`crypto.createHmac('sha1', sk)`)

Bytes are `Nat` values below 256; 32-bit words are `Nat` values below 2^32,
with wraparound made explicit by `% 4294967296`. -/

/-- 2^32, the word modulus of SHA-1. -/
def w32 : Nat := 4294967296

/-- UTF-8 encoding of one character, as the byte list `crypto`'s
`update(string)` consumes. -/
def utf8Bytes (c : Char) : List Nat :=
  let n := c.toNat
  if n < 128 then [n]
  else if n < 2048 then
    [192 + n / 64, 128 + n % 64]
  else if n < 65536 then
    [224 + n / 4096, 128 + n / 64 % 64, 128 + n % 64]
  else
    [240 + n / 262144, 128 + n / 4096 % 64, 128 + n / 64 % 64, 128 + n % 64]

/-- UTF-8 bytes of a string. -/
def strBytes (s : String) : List Nat :=
  (s.data.map utf8Bytes).flatten

/-- Left rotation of a 32-bit word by `n` bits (`0 < n < 32`), written with
kernel-friendly arithmetic: the shifted-out high bits reappear at the
bottom. -/
def rotl (n x : Nat) : Nat :=
  (x % 2 ^ (32 - n)) * 2 ^ n + x / 2 ^ (32 - n)

/-- Big-endian 8-byte encoding of the 64-bit message bit length. -/
def lenBytes64 (n : Nat) : List Nat :=
  [n / 72057594037927936 % 256, n / 281474976710656 % 256,
   n / 1099511627776 % 256, n / 4294967296 % 256,
   n / 16777216 % 256, n / 65536 % 256, n / 256 % 256, n % 256]

/-- SHA-1 padding: append `0x80`, zero-fill to 56 mod 64, then the 8-byte
big-endian bit length. -/
def padMessage (msg : List Nat) : List Nat :=
  let l := msg.length
  let padLen := (119 - l % 64) % 64
  msg ++ [128] ++ List.replicate padLen 0 ++ lenBytes64 (8 * l)

/-- Big-endian grouping of bytes into 32-bit words. -/
def bytesToWords : List Nat → List Nat
  | b0 :: b1 :: b2 :: b3 :: rest =>
    (((b0 * 256 + b1) * 256 + b2) * 256 + b3) :: bytesToWords rest
  | _ => []

/-- Fuelled splitting of a byte list into 64-byte blocks; every recursion
step consumes 64 bytes, so an initial fuel of the list length always
suffices. -/
def toBlocksAux : Nat → List Nat → List (List Nat)
  | 0, _ => []
  | _, [] => []
  | fuel + 1, c :: cs => (c :: cs.take 63) :: toBlocksAux fuel (cs.drop 63)

/-- Splits a byte list into 64-byte blocks (the input length is always a
multiple of 64 after padding). -/
def toBlocks (l : List Nat) : List (List Nat) :=
  toBlocksAux l.length l

/-- Message-schedule extension: `rev` holds the words most recent first;
each step prepends `rotl 1 (w3 xor w8 xor w14 xor w16)`. Run 64 times to
grow the 16 block words to 80. -/
def extendRev : Nat → List Nat → List Nat
  | 0, rev => rev
  | n + 1, rev =>
    let g := fun i => (rev.get? i).getD 0
    extendRev n (rotl 1 (g 2 ^^^ g 7 ^^^ g 13 ^^^ g 15) :: rev)

/-- SHA-1 running state: the five chaining words. -/
structure Sha1State where
  a : Nat
  b : Nat
  c : Nat
  d : Nat
  e : Nat
  deriving Repr, DecidableEq

/-- One of the 80 SHA-1 rounds. -/
def sha1Round (st : Sha1State) (iw : Nat × Nat) : Sha1State :=
  let i := iw.1
  let w := iw.2
  let fk : Nat × Nat :=
    if i < 20 then ((st.b &&& st.c) ||| ((4294967295 - st.b) &&& st.d), 1518500249)
    else if i < 40 then (st.b ^^^ st.c ^^^ st.d, 1859775393)
    else if i < 60 then
      ((st.b &&& st.c) ||| (st.b &&& st.d) ||| (st.c &&& st.d), 2400959708)
    else (st.b ^^^ st.c ^^^ st.d, 3395469782)
  let temp := (rotl 5 st.a + fk.1 + st.e + fk.2 + w) % w32
  ⟨temp, st.a, rotl 30 st.b, st.c, st.d⟩

/-- SHA-1 compression of one 64-byte block into the chaining state. -/
def sha1Compress (h : Sha1State) (block : List Nat) : Sha1State :=
  let ws := (extendRev 64 (bytesToWords block).reverse).reverse
  let f := ((List.range 80).zip ws).foldl sha1Round h
  ⟨(h.a + f.a) % w32, (h.b + f.b) % w32, (h.c + f.c) % w32,
   (h.d + f.d) % w32, (h.e + f.e) % w32⟩

/-- Big-endian 4-byte decomposition of a 32-bit word. -/
def wordBytes (w : Nat) : List Nat :=
  [w / 16777216 % 256, w / 65536 % 256, w / 256 % 256, w % 256]

/-- SHA-1 digest (20 bytes) of a byte list. -/
def sha1 (msg : List Nat) : List Nat :=
  let f := (toBlocks (padMessage msg)).foldl sha1Compress
    ⟨1732584193, 4023233417, 2562383102, 271733878, 3285377520⟩
  wordBytes f.a ++ wordBytes f.b ++ wordBytes f.c ++ wordBytes f.d ++ wordBytes f.e

/-- HMAC-SHA1 (RFC 2104) over byte lists, as node's
`createHmac('sha1', key)` computes. -/
def hmacSha1 (key msg : List Nat) : List Nat :=
  let k0 := if 64 < key.length then sha1 key else key
  let k := k0 ++ List.replicate (64 - k0.length) 0
  let ipad := k.map (fun b => b ^^^ 54)
  let opad := k.map (fun b => b ^^^ 92)
  sha1 (opad ++ sha1 (ipad ++ msg))

/-- Standard base64 alphabet. -/
def b64Alphabet : List Char :=
  "ABCDEFGHIJKLMNOPQRSTUVWXYZabcdefghijklmnopqrstuvwxyz0123456789+/".data

/-- Character for one 6-bit group. -/
def b64Char (n : Nat) : Char := (b64Alphabet.get? n).getD (Char.ofNat 65)

/-- Standard base64 encoding of a byte list, with `=` padding. -/
def base64 : List Nat → String
  | [] => ""
  | [b1] =>
    String.mk [b64Char (b1 / 4), b64Char (b1 % 4 * 16)] ++ "=="
  | [b1, b2] =>
    String.mk [b64Char (b1 / 4), b64Char (b1 % 4 * 16 + b2 / 16),
      b64Char (b2 % 16 * 4)] ++ "="
  | b1 :: b2 :: b3 :: rest =>
    String.mk [b64Char (b1 / 4), b64Char (b1 % 4 * 16 + b2 / 16),
      b64Char (b2 % 16 * 4 + b3 / 64), b64Char (b3 % 64)] ++ base64 rest

/-- `.digest('base64')` of `createHmac('sha1', key).update(msg)`: the
base64-encoded HMAC-SHA1 of the UTF-8 bytes of `msg` under the UTF-8 bytes
of `key`. -/
def hmacSha1Base64 (key msg : String) : String :=
  base64 (hmacSha1 (strBytes key) (strBytes msg))

/-! ### Signed OSS upload (`uploadToOSS`, `client.ts:90-180`) -/

/-- Fixed OSS client identifier header value (`client.ts:114`). -/
def ossUserAgent : String := "aliyun-sdk-js/6.22.0 Firefox 136.0 on OS X 10.15"

/-- The `ossHeaders` object literal (`client.ts:110-115`), in insertion
order. -/
def ossHeaders (date token : String) : List (String × String) :=
  [("x-oss-date", date),
   ("x-oss-security-token", token),
   ("x-oss-forbid-overwrite", "true"),
   ("x-oss-user-agent", ossUserAgent)]

/-- Code-point lexicographic comparison of character lists, the order
`localeCompare` induces on the plain ASCII keys involved. -/
def charsLt : List Char → List Char → Bool
  | [], [] => false
  | [], _ :: _ => true
  | _ :: _, [] => false
  | c :: cs, d :: ds =>
    if c.toNat < d.toNat then true
    else if d.toNat < c.toNat then false
    else charsLt cs ds

/-- Key order used by the `.sort(([a],[b]) => a.localeCompare(b))` call. -/
def keyLt (a b : String) : Bool := charsLt a.data b.data

/-- Insertion of one pair into a key-sorted list (ascending). -/
def insertByKey (p : String × String) :
    List (String × String) → List (String × String)
  | [] => [p]
  | q :: qs => if keyLt q.1 p.1 then q :: insertByKey p qs else p :: q :: qs

/-- Ascending key sort, modelling the `.sort` call of `client.ts:120`. -/
def sortByKey : List (String × String) → List (String × String)
  | [] => []
  | p :: ps => insertByKey p (sortByKey ps)

/-- JS `Array.prototype.join('\n')`. -/
def joinNL : List String → String
  | [] => ""
  | [s] => s
  | s :: rest => s ++ "\n" ++ joinNL rest

/-- `canonicalizedOSSHeaders` (`client.ts:118-122`): the header entries
sorted by key, rendered as lower-cased `key:value` lines joined by
newlines, with one trailing newline. -/
def canonicalizedOSSHeaders (date token : String) : String :=
  joinNL
    ((sortByKey (ossHeaders date token)).map
      (fun p => String.mk (p.1.data.map Char.toLower) ++ ":" ++ p.2)) ++ "\n"

/-- `canonicalizedResource` (`client.ts:125`). -/
def canonicalizedResource (path : String) : String :=
  "/pixverse-fe-upload/" ++ path

/-- `stringToSign` (`client.ts:128-134`): method, empty content-MD5 line,
content type, date, then header block immediately followed by the resource,
all joined with newlines.  The method is the literal `'PUT'`
(`client.ts:107`). -/
def stringToSign (contentType date token path : String) : String :=
  joinNL
    ["PUT", "", contentType, date,
     canonicalizedOSSHeaders date token ++ canonicalizedResource path]

/-- Modelled from the spec: the canonical signing string as §4.2 of the
specification describes it, whose canonicalized header block holds
`key:value` lines for exactly the storage-security-token, forbid-overwrite
and client-identifier headers (sorted by key, each newline-terminated) —
the spec's list omits the `x-oss-date` header that the code also places in
the block. -/
def stringToSignSpec (contentType date token path : String) : String :=
  joinNL
    ["PUT", "", contentType, date,
     ("x-oss-forbid-overwrite:true\n"
       ++ "x-oss-security-token:" ++ token ++ "\n"
       ++ "x-oss-user-agent:" ++ ossUserAgent ++ "\n")
      ++ canonicalizedResource path]

/-- The dot character on which `fileName.split('.')` splits. -/
def dotChar : Char := Char.ofNat 46

/-- JS `string.split('.')` on the character list: splits at every dot,
keeping empty segments, never returning an empty list. -/
def splitOnDot : List Char → List (List Char)
  | [] => [[]]
  | c :: cs =>
    if c = dotChar then [] :: splitOnDot cs
    else
      match splitOnDot cs with
      | [] => [[c]]
      | p :: ps => (c :: p) :: ps

/-- JS `array.pop()` applied to the split result: its last segment. -/
def lastSeg (l : List Char) : List Char :=
  ((splitOnDot l).getLast?).getD []

/-- `fileExt` (`client.ts:95-97`): `'.' + fileName.split('.').pop()` when
the name contains a dot, otherwise the empty string. -/
def fileExt (fileName : String) : String :=
  if fileName.data.contains dotChar then
    "." ++ String.mk (lastSeg fileName.data)
  else ""

/-- The signature of `client.ts:136-139`: base64 HMAC-SHA1 of the canonical
string under the credential's secret key. -/
def uploadSignature (sk contentType date token path : String) : String :=
  hmacSha1Base64 sk (stringToSign contentType date token path)

/-- What the one `fetch` of `uploadToOSS` returns: status, response body
text, status text. -/
structure PutResponse where
  status : Nat
  bodyText : String
  statusText : String
  deriving Repr

/-- `OSSUploadResponse` from `types.ts`. -/
structure OSSUploadResponse where
  name : String
  path : String
  type : Nat
  deriving Repr, DecidableEq

/-- The PUT request `uploadToOSS` issues: target URL and header mapping
(`client.ts:144-161`). -/
structure PutRequest where
  url : String
  headers : List (String × String)
  deriving Repr

/-- Instrumented outcome of one `uploadToOSS` invocation: the single PUT it
issued, how many PUTs were issued (always one — there is no retry), the
generated object name, and the settled value. -/
structure UploadOutcome where
  putRequest : PutRequest
  putCount : Nat
  objectName : String
  result : Except String OSSUploadResponse
  deriving Repr

/-- Error message of `client.ts:165-169`: status code plus the response
body text, falling back to the status text when the body is empty (JS
`errorText || response.statusText`). -/
def uploadErrorMsg (resp : PutResponse) : String :=
  "Failed to upload file (" ++ toString resp.status ++ "): "
    ++ (if resp.bodyText = "" then resp.statusText else resp.bodyText)

/-- `uploadToOSS` (`client.ts:90-180`).  The fresh `crypto.randomUUID()`
value and the `new Date().toUTCString()` value are explicit per-invocation
parameters `uuid` and `date`; `fileType` is `file.type`; `resp` is what the
single `fetch` PUT returns. -/
def uploadToOSS (uuid date fileType fileName : String)
    (tok : UploadTokenResponse) (resp : PutResponse) : UploadOutcome :=
  let name := uuid ++ fileExt fileName
  let path := "upload/" ++ name
  let signature := uploadSignature tok.Sk fileType date tok.Token path
  let req : PutRequest :=
    { url := "https://pixverse-fe-upload.oss-accelerate.aliyuncs.com/" ++ path
      headers :=
        [("Accept", "*/*"),
         ("x-oss-date", date),
         ("x-oss-user-agent", ossUserAgent),
         ("x-oss-security-token", tok.Token),
         ("Access-Control-Allow-Origin", "*"),
         ("x-oss-forbid-overwrite", "true"),
         ("Content-Type", fileType),
         ("authorization", "OSS " ++ tok.Ak ++ ":" ++ signature)] }
  if httpOk resp.status then
    { putRequest := req, putCount := 1, objectName := name
      result := .ok
        { name := name, path := path
          type := if fileType = "video/mp4" then 1 else 2 } }
  else
    { putRequest := req, putCount := 1, objectName := name
      result := .error (uploadErrorMsg resp) }

/-! ### Concrete fixtures used by the witness theorems -/

/-- A network that rejects every attempt. -/
def failAll : Nat → AttemptOutcome Unit := fun _ => .networkError "boom"

/-- A network whose first attempt rejects and whose later attempts succeed
with a clean envelope. -/
def failThenOk : Nat → AttemptOutcome Unit := fun i =>
  if i = 0 then .networkError "blip" else .httpResponse 200 ⟨0, "", ()⟩

/-- A network that always answers 200 with a nonzero envelope code. -/
def badEnvOutcomes : Nat → AttemptOutcome Unit := fun _ =>
  .httpResponse 200 ⟨5, "boom", ()⟩

/-- A network that always succeeds with a clean envelope. -/
def okOutcomes : Nat → AttemptOutcome Unit := fun _ =>
  .httpResponse 200 ⟨0, "", ()⟩

/-- A concrete upload credential. -/
def tok0 : UploadTokenResponse := ⟨"ak", "sk", "tok"⟩

/-- A concrete upload-token network answering with `tok0`. -/
def okTokenOutcomes : Nat → AttemptOutcome UploadTokenResponse := fun _ =>
  .httpResponse 200 ⟨0, "", tok0⟩

/-- A failed PUT response with an empty body. -/
def resp500 : PutResponse := ⟨500, "", "Server Error"⟩

/-- A successful PUT response. -/
def resp200 : PutResponse := ⟨200, "", "OK"⟩

/-! ## Theorems -/

/-- C3: for every request whose every attempt fails, the executor makes
exactly 4 attempts (1 initial + 3 retries) with a fixed 1000 ms delay
between consecutive attempts, and propagates the error of the last (4th)
attempt to the caller unchanged. -/
theorem claim_C3_retry_exhaustion {T : Type} (outcomes : Nat → AttemptOutcome T)
    (e : String)
    (hfail : ∀ i, i < 3 → ∃ msg, attemptResult (outcomes i) = Except.error msg)
    (hlast : attemptResult (outcomes 3) = Except.error e) :
    requestExec outcomes = ⟨Except.error e, 4, [1000, 1000, 1000]⟩ := by
  obtain ⟨e0, h0⟩ := hfail 0 (by omega)
  obtain ⟨e1, h1⟩ := hfail 1 (by omega)
  obtain ⟨e2, h2⟩ := hfail 2 (by omega)
  simp [requestExec, requestLoop, h0, h1, h2, hlast]

/-- Witness for C3: the always-rejecting network is retried to exactly 4
attempts, three 1-second delays, and its last error is propagated. -/
theorem claim_C3_witness :
    requestExec failAll = ⟨Except.error "boom", 4, [1000, 1000, 1000]⟩ :=
  claim_C3_retry_exhaustion failAll "boom" (fun _ _ => ⟨"boom", rfl⟩) rfl

/-- C4: for every request that first succeeds (2xx status and embedded
code 0) on attempt `k`, `k ∈ {1,2,3,4}`, the executor makes exactly `k`
attempts and its result is the decoded envelope of the succeeding
response. -/
theorem claim_C4_success_at_k {T : Type} (outcomes : Nat → AttemptOutcome T)
    (k : Nat) (d : PixverseResponse T) (hk1 : 1 ≤ k) (hk4 : k ≤ 4)
    (hfail : ∀ i, i < k - 1 → ∃ msg, attemptResult (outcomes i) = Except.error msg)
    (hok : attemptResult (outcomes (k - 1)) = Except.ok d) :
    requestExec outcomes = ⟨Except.ok d, k, List.replicate (k - 1) 1000⟩ := by
  interval_cases k
  · simp at hok
    simp [requestExec, requestLoop, hok]
  · obtain ⟨e0, h0⟩ := hfail 0 (by omega)
    simp at hok
    simp [requestExec, requestLoop, h0, hok, List.replicate]
  · obtain ⟨e0, h0⟩ := hfail 0 (by omega)
    obtain ⟨e1, h1⟩ := hfail 1 (by omega)
    simp at hok
    simp [requestExec, requestLoop, h0, h1, hok, List.replicate]
  · obtain ⟨e0, h0⟩ := hfail 0 (by omega)
    obtain ⟨e1, h1⟩ := hfail 1 (by omega)
    obtain ⟨e2, h2⟩ := hfail 2 (by omega)
    simp at hok
    simp [requestExec, requestLoop, h0, h1, h2, hok, List.replicate]

/-- Witness for C4: a network failing once and then succeeding stops after
exactly 2 attempts with the succeeding envelope. -/
theorem claim_C4_witness :
    requestExec failThenOk = ⟨Except.ok ⟨0, "", ()⟩, 2, List.replicate 1 1000⟩ :=
  claim_C4_success_at_k failThenOk 2 ⟨0, "", ()⟩ (by omega) (by omega)
    (fun i hi => ⟨"blip", by interval_cases i; rfl⟩) rfl

/-- C5: for every request answered with 2xx status but a nonzero envelope
code on all attempts, the payload is never returned: the executor retries
to the same 4-attempt budget and fails with the API error of the last
envelope, whose message contains both the envelope message and its numeric
code. -/
theorem claim_C5_envelope_failure {T : Type} (outcomes : Nat → AttemptOutcome T)
    (s3 : Nat) (b3 : PixverseResponse T)
    (hfail : ∀ i, i < 3 → ∃ s b, outcomes i = AttemptOutcome.httpResponse s b ∧
      httpOk s = true ∧ b.ErrCode ≠ 0)
    (h3 : outcomes 3 = AttemptOutcome.httpResponse s3 b3)
    (h3ok : httpOk s3 = true) (h3code : b3.ErrCode ≠ 0) :
    requestExec outcomes = ⟨Except.error (apiErrorMsg b3), 4, [1000, 1000, 1000]⟩ ∧
    (∃ p q, apiErrorMsg b3 = p ++ b3.ErrMsg ++ q) ∧
    (∃ p q, apiErrorMsg b3 = p ++ toString b3.ErrCode ++ q) := by
  obtain ⟨s0, b0, h0, h0ok, h0c⟩ := hfail 0 (by omega)
  obtain ⟨s1, b1, h1, h1ok, h1c⟩ := hfail 1 (by omega)
  obtain ⟨s2, b2, h2, h2ok, h2c⟩ := hfail 2 (by omega)
  refine ⟨?_, ?_, ?_⟩
  · simp [requestExec, requestLoop, attemptResult, h0, h1, h2, h3, h0ok, h1ok,
      h2ok, h3ok, h0c, h1c, h2c, h3code]
  · exact ⟨"API error: ", " (Code: " ++ toString b3.ErrCode ++ ")",
      by simp [apiErrorMsg, String.append_assoc]⟩
  · exact ⟨"API error: " ++ b3.ErrMsg ++ " (Code: ", ")",
      by simp [apiErrorMsg, String.append_assoc]⟩

/-- Witness for C5: the network that always answers 200 with code 5 and
message boom is retried to 4 attempts and ends in the composed API error. -/
theorem claim_C5_witness :
    requestExec badEnvOutcomes =
      ⟨Except.error (apiErrorMsg (⟨5, "boom", ()⟩ : PixverseResponse Unit)),
        4, [1000, 1000, 1000]⟩ ∧
    (∃ p q, apiErrorMsg (⟨5, "boom", ()⟩ : PixverseResponse Unit) = p ++ "boom" ++ q) ∧
    (∃ p q, apiErrorMsg (⟨5, "boom", ()⟩ : PixverseResponse Unit) =
      p ++ toString (5 : Int) ++ q) :=
  claim_C5_envelope_failure badEnvOutcomes 200 ⟨5, "boom", ()⟩
    (fun _ _ => ⟨200, ⟨5, "boom", ()⟩, rfl, rfl, by decide⟩) rfl rfl (by decide)

/-- C2: evaluation of the header construction at the failing input. The
per-call mapping passed to `request` carries `Refresh = credit` (as
`createLipSync` passes it), yet the init actually handed to `fetch` — the
spread of the options followed by the overwritten `headers` field — carries
no `Refresh` key at all: `request` discards per-call header overrides,
while a construction-time `config.headers` override (here `X-Platform`)
does win over the defaults. -/
theorem claim_C2_per_call_headers_dropped :
    lookupHeader (RequestOptions.headers
      { httpMethod := "POST", body := some "null",
        headers := [("Refresh", "credit")] }) "Refresh" = some "credit" ∧
    lookupHeader (sentInit { token := "tk", headers := [] } "trace-1"
      { httpMethod := "POST", body := some "null",
        headers := [("Refresh", "credit")] }).headers "Refresh" = none ∧
    lookupHeader (sentInit { token := "tk", headers := [("X-Platform", "Desktop")] }
      "trace-1"
      { httpMethod := "POST", body := some "null",
        headers := [("Refresh", "credit")] }).headers "X-Platform" = some "Desktop" := by
  decide

/-- C6: each of the three validating convenience methods throws locally —
with zero transport attempts — exactly when its validation condition
fails: `createLipSync` on an empty source path, empty TTS text, or a
non-positive duration; `getLastVideoFrame` on an empty video path or
non-positive duration; `getVideoDetails` on a zero video id. -/
theorem claim_C6_local_validation {T : Type} (r1 : LipSyncRequest)
    (r2 : LastVideoFrameRequest) (r3 : VideoDetailsRequest)
    (o : Nat → AttemptOutcome T) :
    ((createLipSync r1 o).localError ≠ none ↔
      (r1.customer_video_path = "" ∨ r1.lip_sync_tts_content = "" ∨
        r1.customer_video_duration ≤ 0)) ∧
    ((createLipSync r1 o).localError ≠ none →
      (createLipSync r1 o).networkAttempts = 0) ∧
    ((getLastVideoFrame r2 o).localError ≠ none ↔
      (r2.video_path = "" ∨ r2.duration ≤ 0)) ∧
    ((getLastVideoFrame r2 o).localError ≠ none →
      (getLastVideoFrame r2 o).networkAttempts = 0) ∧
    ((getVideoDetails r3 o).localError ≠ none ↔ r3.video_id = 0) ∧
    ((getVideoDetails r3 o).localError ≠ none →
      (getVideoDetails r3 o).networkAttempts = 0) := by
  unfold createLipSync getLastVideoFrame getVideoDetails
  split_ifs <;> simp_all [localFailure, callEnvelope] <;> tauto

/-- Witness for C6: a lip-sync request with an empty source path is
rejected locally, with no transport attempt. -/
theorem claim_C6_witness :
    (createLipSync ⟨"", "hello", 5⟩ okOutcomes).localError ≠ none ∧
    (createLipSync ⟨"", "hello", 5⟩ okOutcomes).networkAttempts = 0 := by
  have h := claim_C6_local_validation ⟨"", "hello", 5⟩ ⟨"p", 1⟩ ⟨1⟩ okOutcomes
  have h1 := h.1.mpr (Or.inl rfl)
  exact ⟨h1, h.2.1 h1⟩

/-- C10: on success the convenience methods are inconsistent in shape —
`getUploadToken` and `uploadMedia` resolve with only the envelope's `Resp`
payload, while `createLipSync`, `getLastVideoFrame` and `getVideoDetails`
resolve with the entire envelope. -/
theorem claim_C10_result_shapes {T : Type}
    (oU : Nat → AttemptOutcome UploadTokenResponse) (oT : Nat → AttemptOutcome T)
    (envU : PixverseResponse UploadTokenResponse) (env : PixverseResponse T)
    (r1 : LipSyncRequest) (r2 : LastVideoFrameRequest) (r3 : VideoDetailsRequest)
    (hU : attemptResult (oU 0) = Except.ok envU)
    (hT : attemptResult (oT 0) = Except.ok env)
    (hr1p : r1.customer_video_path ≠ "") (hr1t : r1.lip_sync_tts_content ≠ "")
    (hr1d : 0 < r1.customer_video_duration)
    (hr2p : r2.video_path ≠ "") (hr2d : 0 < r2.duration) (hr3 : r3.video_id ≠ 0) :
    (getUploadToken oU).result = Except.ok envU.Resp ∧
    (uploadMedia oT).result = Except.ok env.Resp ∧
    (createLipSync r1 oT).result = Except.ok env ∧
    (getLastVideoFrame r2 oT).result = Except.ok env ∧
    (getVideoDetails r3 oT).result = Except.ok env := by
  have hrun : requestExec oT = ⟨Except.ok env, 1, []⟩ := by
    simp [requestExec, requestLoop, hT]
  have hrunU : requestExec oU = ⟨Except.ok envU, 1, []⟩ := by
    simp [requestExec, requestLoop, hU]
  refine ⟨?_, ?_, ?_, ?_, ?_⟩
  · simp [getUploadToken, callResp, hrunU, Except.map]
  · simp [uploadMedia, callResp, hrun, Except.map]
  · rw [createLipSync, if_neg, if_neg]
    · simp [callEnvelope, hrun]
    · omega
    · rintro (h | h)
      · exact hr1p h
      · exact hr1t h
  · rw [getLastVideoFrame, if_neg]
    · simp [callEnvelope, hrun]
    · rintro (h | h)
      · exact hr2p h
      · omega
  · rw [getVideoDetails, if_neg hr3]
    simp [callEnvelope, hrun]

/-- Witness for C10: concrete successful runs of all five methods, showing
payload-only results for the first two and full envelopes for the rest. -/
theorem claim_C10_witness :
    (getUploadToken okTokenOutcomes).result = Except.ok tok0 ∧
    (uploadMedia okOutcomes).result = Except.ok () ∧
    (createLipSync ⟨"p", "text", 5⟩ okOutcomes).result =
      Except.ok (⟨0, "", ()⟩ : PixverseResponse Unit) ∧
    (getLastVideoFrame ⟨"p", 5⟩ okOutcomes).result =
      Except.ok (⟨0, "", ()⟩ : PixverseResponse Unit) ∧
    (getVideoDetails ⟨7⟩ okOutcomes).result =
      Except.ok (⟨0, "", ()⟩ : PixverseResponse Unit) :=
  claim_C10_result_shapes okTokenOutcomes okOutcomes ⟨0, "", tok0⟩ ⟨0, "", ()⟩
    ⟨"p", "text", 5⟩ ⟨"p", 5⟩ ⟨7⟩ rfl rfl (by decide) (by decide) (by decide)
    (by decide) (by decide) (by decide)

/-! ### Helper lemmas about `splitOnDot` and `uploadToOSS` -/

theorem splitOnDot_ne_nil (l : List Char) : splitOnDot l ≠ [] := by
  induction l with
  | nil => simp [splitOnDot]
  | cons c cs ih =>
    by_cases hc : c = dotChar
    · simp [splitOnDot, hc]
    · cases h : splitOnDot cs with
      | nil => exact absurd h ih
      | cons p ps => simp [splitOnDot, hc, h]

theorem splitOnDot_no_dot (l : List Char) (h : dotChar ∉ l) : splitOnDot l = [l] := by
  induction l with
  | nil => simp [splitOnDot]
  | cons c cs ih =>
    simp only [List.mem_cons, not_or] at h
    have hc : c ≠ dotChar := fun he => h.1 he.symm
    rw [splitOnDot, if_neg hc, ih h.2]

theorem splitOnDot_two_le (l : List Char) (h : dotChar ∈ l) :
    2 ≤ (splitOnDot l).length := by
  induction l with
  | nil => simp at h
  | cons c cs ih =>
    by_cases hc : c = dotChar
    · rw [splitOnDot, if_pos hc]
      cases hcs : splitOnDot cs with
      | nil => exact absurd hcs (splitOnDot_ne_nil cs)
      | cons p ps => simp
    · have hcs : dotChar ∈ cs := by
        rcases List.mem_cons.mp h with h1 | h1
        · exact absurd h1.symm hc
        · exact h1
      cases hsp : splitOnDot cs with
      | nil => exact absurd hsp (splitOnDot_ne_nil cs)
      | cons p ps =>
        have := ih hcs
        rw [hsp] at this
        rw [splitOnDot, if_neg hc, hsp]
        simpa using this

theorem lastSeg_decomp (l : List Char) (h : dotChar ∈ l) :
    ∃ p, l = p ++ dotChar :: lastSeg l ∧ dotChar ∉ lastSeg l := by
  induction l with
  | nil => simp at h
  | cons c cs ih =>
    by_cases hc : c = dotChar
    · subst hc
      by_cases hcs : dotChar ∈ cs
      · obtain ⟨p, hp, hnd⟩ := ih hcs
        have hlast : lastSeg (dotChar :: cs) = lastSeg cs := by
          unfold lastSeg
          rw [splitOnDot, if_pos rfl]
          cases hsp : splitOnDot cs with
          | nil => exact absurd hsp (splitOnDot_ne_nil cs)
          | cons x xs => rw [List.getLast?_cons_cons]
        refine ⟨dotChar :: p, ?_, ?_⟩
        · rw [hlast]
          simpa using hp
        · rw [hlast]; exact hnd
      · have hsp := splitOnDot_no_dot cs hcs
        have hlast : lastSeg (dotChar :: cs) = cs := by
          unfold lastSeg
          rw [splitOnDot, if_pos rfl, hsp, List.getLast?_cons_cons]
          rfl
        exact ⟨[], by simp [hlast], by rw [hlast]; exact hcs⟩
    · have hcs : dotChar ∈ cs := by
        rcases List.mem_cons.mp h with h1 | h1
        · exact absurd h1.symm hc
        · exact h1
      obtain ⟨p, hp, hnd⟩ := ih hcs
      cases hsp : splitOnDot cs with
      | nil => exact absurd hsp (splitOnDot_ne_nil cs)
      | cons x xs =>
        have hxs : xs ≠ [] := by
          have := splitOnDot_two_le cs hcs
          rw [hsp] at this
          intro he
          rw [he] at this
          simp at this
        cases xs with
        | nil => exact absurd rfl hxs
        | cons y ys =>
          have hlast : lastSeg (c :: cs) = lastSeg cs := by
            unfold lastSeg
            rw [splitOnDot, if_neg hc, hsp, List.getLast?_cons_cons,
              List.getLast?_cons_cons]
          refine ⟨c :: p, ?_, ?_⟩
          · rw [hlast]
            simpa using hp
          · rw [hlast]; exact hnd

theorem uploadToOSS_putCount (uuid date fileType fileName : String)
    (tok : UploadTokenResponse) (resp : PutResponse) :
    (uploadToOSS uuid date fileType fileName tok resp).putCount = 1 := by
  simp only [uploadToOSS]
  split <;> rfl

theorem uploadToOSS_objectName (uuid date fileType fileName : String)
    (tok : UploadTokenResponse) (resp : PutResponse) :
    (uploadToOSS uuid date fileType fileName tok resp).objectName =
      uuid ++ fileExt fileName := by
  simp only [uploadToOSS]
  split <;> rfl

theorem uploadToOSS_putRequest (uuid date fileType fileName : String)
    (tok : UploadTokenResponse) (resp : PutResponse) :
    (uploadToOSS uuid date fileType fileName tok resp).putRequest =
      { url := "https://pixverse-fe-upload.oss-accelerate.aliyuncs.com/"
          ++ ("upload/" ++ (uuid ++ fileExt fileName))
        headers :=
          [("Accept", "*/*"),
           ("x-oss-date", date),
           ("x-oss-user-agent", ossUserAgent),
           ("x-oss-security-token", tok.Token),
           ("Access-Control-Allow-Origin", "*"),
           ("x-oss-forbid-overwrite", "true"),
           ("Content-Type", fileType),
           ("authorization", "OSS " ++ tok.Ak ++ ":" ++
             uploadSignature tok.Sk fileType date tok.Token
               ("upload/" ++ (uuid ++ fileExt fileName)))] } := by
  simp only [uploadToOSS]
  split <;> rfl

/-! ### Upload claims -/

/-- C1 counterexample: at a concrete content type, date, token and path,
the canonical string the code signs differs from the one §4.2 of the
specification describes — the code's canonicalized header block contains a
fourth, `x-oss-date` line that the spec's block omits. -/
theorem claim_C1_counterexample :
    stringToSign "a" "d" "t" "p" ≠ stringToSignSpec "a" "d" "t" "p" := by
  decide

/-- C1 (amended): for every content type, date, token and path, the
canonical signing string is: the method, a blank content-MD5 line, the
content type, the date, then a canonicalized header block of FOUR
lower-cased newline-terminated `key:value` lines — `x-oss-date`,
`x-oss-forbid-overwrite`, `x-oss-security-token`, `x-oss-user-agent`,
sorted by key (so the date appears a second time inside the block) —
immediately followed by the canonical resource path, all joined by
newlines. -/
theorem claim_C1_canonical_string (ct d t p : String) :
    stringToSign ct d t p =
      "PUT" ++ "\n" ++ "\n" ++ ct ++ "\n" ++ d ++ "\n"
      ++ "x-oss-date:" ++ d ++ "\n"
      ++ "x-oss-forbid-overwrite:true" ++ "\n"
      ++ "x-oss-security-token:" ++ t ++ "\n"
      ++ "x-oss-user-agent:" ++ ossUserAgent ++ "\n"
      ++ "/pixverse-fe-upload/" ++ p := by
  simp [stringToSign, canonicalizedOSSHeaders, ossHeaders, sortByKey, insertByKey,
    keyLt, charsLt, joinNL, canonicalizedResource, ossUserAgent, String.append_assoc]
  rfl

/-- C7: every invocation of `uploadToOSS` issues exactly one PUT; on a
non-2xx response it fails with the status code and the response body text
(or the status text when the body is empty); and the object name placed in
the URL, the date header, and the signature are all regenerated from the
per-invocation uuid and timestamp — in particular two invocations with
distinct fresh uuids use distinct object names. -/
theorem claim_C7_single_put (uuid date fileType fileName : String)
    (tok : UploadTokenResponse) (resp : PutResponse) :
    (uploadToOSS uuid date fileType fileName tok resp).putCount = 1 ∧
    (httpOk resp.status = false →
      (uploadToOSS uuid date fileType fileName tok resp).result =
        Except.error ("Failed to upload file (" ++ toString resp.status ++ "): "
          ++ (if resp.bodyText = "" then resp.statusText else resp.bodyText))) ∧
    (∀ uuid2, uuid2 ≠ uuid →
      (uploadToOSS uuid2 date fileType fileName tok resp).objectName ≠
        (uploadToOSS uuid date fileType fileName tok resp).objectName) ∧
    lookupHeader (uploadToOSS uuid date fileType fileName tok resp).putRequest.headers
      "x-oss-date" = some date ∧
    lookupHeader (uploadToOSS uuid date fileType fileName tok resp).putRequest.headers
      "authorization" = some ("OSS " ++ tok.Ak ++ ":" ++
        uploadSignature tok.Sk fileType date tok.Token
          ("upload/" ++ (uuid ++ fileExt fileName))) := by
  refine ⟨uploadToOSS_putCount uuid date fileType fileName tok resp, ?_, ?_, ?_, ?_⟩
  · intro hfail
    simp [uploadToOSS, hfail, uploadErrorMsg]
  · intro uuid2 hne heq
    rw [uploadToOSS_objectName, uploadToOSS_objectName] at heq
    apply hne
    have hdata := congrArg String.data heq
    simp only [String.data_append] at hdata
    exact String.ext (List.append_cancel_right hdata)
  · rw [uploadToOSS_putRequest]
    simp [lookupHeader]
  · rw [uploadToOSS_putRequest]
    simp [lookupHeader]

/-- Witness for C7: two concrete invocations differing only in the fresh
uuid produce distinct object names. -/
theorem claim_C7_witness :
    (uploadToOSS "u2" "d" "video/mp4" "a.mp4" tok0 resp500).objectName ≠
      (uploadToOSS "u1" "d" "video/mp4" "a.mp4" tok0 resp500).objectName :=
  (claim_C7_single_put "u1" "d" "video/mp4" "a.mp4" tok0 resp500).2.2.1 "u2"
    (by decide)

/-- C8: on a 2xx response, `uploadToOSS` returns the generated object name
(the fresh uuid plus the original extension), the path `upload/` followed
by that name, and type 1 exactly for `video/mp4` payloads, 2 otherwise;
the appended extension is a dot followed by the text after the LAST dot of
the filename (itself dot-free), and is empty when the filename has no
dot. -/
theorem claim_C8_success_result (uuid date fileType fileName : String)
    (tok : UploadTokenResponse) (resp : PutResponse)
    (h : httpOk resp.status = true) :
    (uploadToOSS uuid date fileType fileName tok resp).result =
      Except.ok { name := uuid ++ fileExt fileName
                  path := "upload/" ++ (uuid ++ fileExt fileName)
                  type := if fileType = "video/mp4" then 1 else 2 } ∧
    (fileName.data.contains dotChar = false → fileExt fileName = "") ∧
    (fileName.data.contains dotChar = true →
      ∃ p t, fileName.data = p ++ dotChar :: t ∧ dotChar ∉ t ∧
        fileExt fileName = String.mk (dotChar :: t)) := by
  refine ⟨by simp [uploadToOSS, h], ?_, ?_⟩
  · intro hnd
    rw [fileExt, if_neg (by simpa using hnd)]
  · intro hd
    have hmem : dotChar ∈ fileName.data := by
      simpa using hd
    obtain ⟨p, hp, hnd⟩ := lastSeg_decomp fileName.data hmem
    refine ⟨p, lastSeg fileName.data, hp, hnd, ?_⟩
    rw [fileExt, if_pos hd]
    rfl

/-- Witness for C8: uploading `a.mp4` as `video/mp4` with uuid `u` yields
name `u.mp4`, path `upload/u.mp4`, type 1. -/
theorem claim_C8_witness :
    (uploadToOSS "u" "d" "video/mp4" "a.mp4" tok0 resp200).result =
      Except.ok { name := "u" ++ fileExt "a.mp4"
                  path := "upload/" ++ ("u" ++ fileExt "a.mp4")
                  type := if ("video/mp4" : String) = "video/mp4" then 1 else 2 } :=
  (claim_C8_success_result "u" "d" "video/mp4" "a.mp4" tok0 resp200 (by decide)).1

set_option maxRecDepth 10000 in
/-- C9 counterexample: two runs of the uploader agreeing on the method,
content type, date string, security token and secret key — but with the
distinct fresh object paths two runs generate — produce DIFFERENT base64
HMAC-SHA1 signatures, because the canonical string also covers the
resource path. -/
theorem claim_C9_counterexample :
    uploadSignature "k" "ct" "d" "t" "upload/x" ≠
      uploadSignature "k" "ct" "d" "t" "upload/y" := by
  decide

/-- C9 (amended): the upload signature is a pure function of the method,
content type, date string, security token, secret key AND generated
resource path: any two runs agreeing on all of these produce the identical
base64 HMAC-SHA1 signature. -/
theorem claim_C9_signature_deterministic (sk1 sk2 ct1 ct2 d1 d2 t1 t2 p1 p2 : String)
    (hsk : sk1 = sk2) (hct : ct1 = ct2) (hd : d1 = d2) (ht : t1 = t2)
    (hp : p1 = p2) :
    uploadSignature sk1 ct1 d1 t1 p1 = uploadSignature sk2 ct2 d2 t2 p2 := by
  rw [hsk, hct, hd, ht, hp]

/-- Witness for C9: two runs with identical inputs produce the identical
signature. -/
theorem claim_C9_witness :
    uploadSignature "k" "ct" "d" "t" "upload/x" =
      uploadSignature "k" "ct" "d" "t" "upload/x" :=
  claim_C9_signature_deterministic "k" "k" "ct" "ct" "d" "d" "t" "t"
    "upload/x" "upload/x" rfl rfl rfl rfl rfl

end Pixverse
